import Mathlib

/-!
Shallow embedding of `app.py` (class `OregonPlateGenerator`): the layout
registry, the synthesized placeholder background, font resolving, and the
letter-spacing text compositor, together with theorems about them.

Images are modelled as their dimensions, creation fill, and the ordered
list of drawing primitives applied to them; `Image.copy()` is value
copying and drawing appends primitives.  Fonts are modelled by their
measurement interface (`draw.textbbox`), with a width and a height that
are nonnegative as PIL bounding boxes are.  The filesystem holding image
assets is an explicit store threaded through `generate_plate`; the set of
font files that load is an explicit environment.
-/

/-- A fill color as handed to the drawing layer: either a color string
(the Python code passes hex strings straight to PIL) or an RGB triple
produced by `hex_to_rgb`. -/
inductive PlateColor
  | str (s : String)
  | rgb (c : Nat × Nat × Nat)
  deriving DecidableEq

/-- One drawing primitive, mirroring the `ImageDraw` calls in `app.py`.
Coordinates are signed pixels. -/
inductive DrawOp
  | rectOutline (x0 y0 x1 y1 : Int) (outline : String) (w : Nat)
  | rectFill (x0 y0 x1 y1 : Int) (fill : String)
  | polygon (pts : List (Int × Int)) (fill : String)
  | ellipse (x0 y0 x1 y1 : Int) (fill : String)
  | text (x y : Int) (s : List Char) (fill : PlateColor)
  deriving DecidableEq

/-- A raster image: fixed dimensions, the creation fill color, and the
drawing primitives applied on top, in order. -/
structure RasterImage where
  width : Nat
  height : Nat
  bg : String
  ops : List DrawOp
  deriving DecidableEq

/-- The measurement interface of a loaded font:
`draw.textbbox((0, 0), s, font)` yields a box whose width
`bbox[2] - bbox[0]` and height `bbox[3] - bbox[1]` are nonnegative. -/
structure Font where
  bboxW : List Char → Nat
  bboxH : List Char → Nat

/-- The ambient environment: which font files load at which size
(`ImageFont.truetype(path, size)`), and the built-in
`ImageFont.load_default()` fallback. -/
structure Env where
  truetype : String → Nat → Option Font
  defaultFont : Font

/-- One entry of `self.plate_config` (lines 13-23 of `app.py`). -/
structure PlateConfig where
  name : String
  image_path : String
  text_color : String
  text_position : Int × Int
  font_size : Nat
  letter_spacing : Nat
  max_chars : Nat

/-- The path the clean base image lives at; the placeholder branch saves
to this same path (lines 16 and 102). -/
def clean_image_path : String := "static/images/oregon_standard_clean.png"

/-- The one registered layout, `plate_config['standard']`. -/
def standard_config : PlateConfig :=
  { name := "Standard Oregon Tree"
    image_path := clean_image_path
    text_color := "#1B365D"
    text_position := (490, 180)
    font_size := 200
    letter_spacing := 8
    max_chars := 10 }

/-- The layout registry `self.plate_config`. -/
def plate_config : List (String × PlateConfig) := [("standard", standard_config)]

/-- Registry lookup: `plate_type in self.plate_config` followed by
`self.plate_config[plate_type]`. -/
def registry_lookup (plate_type : String) : Option PlateConfig :=
  (plate_config.find? (fun e => e.1 == plate_type)).map (fun e => e.2)

/-- Value of one hex digit character. -/
def hexVal (c : Char) : Nat :=
  if c.isDigit then c.toNat - 48
  else if 'a' ≤ c && c ≤ 'f' then c.toNat - 87
  else if 'A' ≤ c && c ≤ 'F' then c.toNat - 55
  else 0

/-- Value of the two-hex-digit field starting at index `i`. -/
def hexByte (l : List Char) (i : Nat) : Nat :=
  16 * hexVal (l.getD i '0') + hexVal (l.getD (i + 1) '0')

/-- `hex_to_rgb` of `app.py` (lines 104-107): strip leading `#`, then read
the fields at offsets 0, 2, 4.  Agrees with the Python on every
well-formed six-hex-digit color, the only colors the registry holds. -/
def hex_to_rgb (hex_color : String) : Nat × Nat × Nat :=
  let h := hex_color.toList.dropWhile (fun c => c = '#')
  (hexByte h 0, hexByte h 2, hexByte h 4)

/-- Python `str.strip()`: drop leading and trailing whitespace. -/
def pyStrip (s : List Char) : List Char :=
  ((s.dropWhile Char.isWhitespace).reverse.dropWhile Char.isWhitespace).reverse

/-- Python `str.upper()`, modelled per character with `Char.toUpper`,
adequate for the ASCII text this program manipulates. -/
def pyUpper (s : List Char) : List Char := s.map Char.toUpper

/-- Line 117: `text = text.upper().strip()`. -/
def normalize_text (s : List Char) : List Char := pyStrip (pyUpper s)

/-- Lines 118-119: cut to `max_chars` only when strictly longer. -/
def truncate_text (max_chars : Nat) (s : List Char) : List Char :=
  if s.length > max_chars then s.take max_chars else s

/-- Lines 180-184: the per-character widths,
`draw.textbbox((0, 0), char, font=font)` for each character in order. -/
def measure_widths (font : Font) (text : List Char) : List Nat :=
  text.map (fun c => font.bboxW [c])

/-- Line 186: `total_width = sum(char_widths) + spacing * (len(text) - 1)`,
in Python signed arithmetic (for the empty text this is `-spacing`). -/
def compute_total_width (char_widths : List Nat) (spacing : Nat) : Int :=
  (char_widths.sum : Int) + (spacing : Int) * ((char_widths.length : Int) - 1)

/-- Line 189: `current_x = x - total_width // 2`; Python `//` floors. -/
def start_x (x : Int) (total_width : Int) : Int := x - total_width.fdiv 2

/-- Lines 191-193: the drawing loop.  One
`draw.text((current_x, y - 25), char, fill=color_rgb, font=font)` per
character, then advance `current_x` by that character's width plus the
letter spacing. -/
def draw_chars (y : Int) (spacing : Nat) (color : PlateColor) :
    Int → List (Char × Nat) → List DrawOp
  | _, [] => []
  | x, (c, w) :: rest =>
      DrawOp.text x (y - 25) [c] color :: draw_chars y spacing color (x + w + spacing) rest

/-- The primitives one `draw_text_with_spacing` call appends. -/
def spaced_ops (text : List Char) (pos : Int × Int) (font : Font)
    (color : String) (spacing : Nat) : List DrawOp :=
  let char_widths := measure_widths font text
  let total_width := compute_total_width char_widths spacing
  draw_chars pos.2 spacing (PlateColor.rgb (hex_to_rgb color))
    (start_x pos.1 total_width) (text.zip char_widths)

/-- `draw_text_with_spacing` of `app.py` (lines 172-193). -/
def draw_text_with_spacing (img : RasterImage) (text : List Char) (pos : Int × Int)
    (font : Font) (color : String) (spacing : Nat) : RasterImage :=
  { img with ops := img.ops ++ spaced_ops text pos font color spacing }

/-- Lines 159-168 of `generate_plate`: the whole-string centering branch
taken when `letter_spacing` is zero. -/
def draw_text_centered (img : RasterImage) (text : List Char) (pos : Int × Int)
    (font : Font) (color : String) : RasterImage :=
  let text_width := font.bboxW text
  let text_height := font.bboxH text
  let x : Int := pos.1 - (text_width / 2 : Nat)
  let y : Int := pos.2 - (text_height / 2 : Nat)
  { img with ops := img.ops ++ [DrawOp.text x y text (PlateColor.rgb (hex_to_rgb color))] }

/-- The font used for the placeholder title (lines 82-85):
`arialbold.ttf` at size 48, else the default font. -/
def placeholder_title_font (env : Env) : Font :=
  (env.truetype "arialbold.ttf" 48).getD env.defaultFont

/-- `create_placeholder_image` of `app.py` (lines 52-100), transcribed draw
call by draw call on the fixed 950 by 475 canvas. -/
def create_placeholder_image (env : Env) : RasterImage :=
  let width : Int := 950
  let height : Int := 475
  let border_color := "#1B365D"
  let tree_x : Int := 475
  let tree_y : Int := height - 120
  let font := placeholder_title_font env
  let text_width : Nat := font.bboxW "Oregon".toList
  let tw2 : Int := (text_width / 2 : Nat)
  { width := 950, height := 475, bg := "#E8F4F8"
    ops :=
      [DrawOp.rectOutline 10 10 (width - 10) (height - 10) border_color 8,
       DrawOp.polygon [(0, height - 80), (150, height - 120), (300, height - 100),
         (450, height - 140), (600, height - 110), (750, height - 130),
         (width, height - 90), (width, height), (0, height)] "#2C5F7C",
       DrawOp.rectFill (tree_x - 8) tree_y (tree_x + 8) (tree_y + 40) "#4A6741"]
      ++ (List.range 3).map (fun i =>
           let y_offset : Int := tree_y - 20 - (i * 25 : Nat)
           let size : Nat := 40 - i * 5
           let s2 : Int := (size / 2 : Nat)
           DrawOp.ellipse (tree_x - size) (y_offset - s2) (tree_x + size)
             (y_offset + s2) "#5C8A58")
      ++ [DrawOp.text (475 - tw2) 40 "Oregon".toList (PlateColor.str border_color)]
      ++ ([(80, 80), (width - 80, 80), (80, height - 80),
           (width - 80, height - 80)] : List (Int × Int)).map
           (fun p => DrawOp.ellipse (p.1 - 15) (p.2 - 15) (p.1 + 15) (p.2 + 15) "#000000")
      ++ [DrawOp.rectOutline 80 (height - 150) 160 (height - 100) border_color 3,
          DrawOp.rectOutline (width - 160) (height - 150) (width - 80) (height - 100)
            border_color 3] }

/-- The backing store of image files, most recent write first. -/
abbrev AssetStore := List (String × RasterImage)

/-- Read a stored image, `Image.open(path)`. -/
def fs_lookup (store : AssetStore) (path : String) : Option RasterImage :=
  (store.find? (fun e => e.1 == path)).map (fun e => e.2)

/-- Write a stored image, `img.save(path)`. -/
def fs_save (store : AssetStore) (path : String) (img : RasterImage) : AssetStore :=
  (path, img) :: store

/-- Lines 101-102: the synthesized placeholder is persisted to the fixed
clean-image path. -/
def run_create_placeholder (env : Env) (store : AssetStore) : AssetStore :=
  fs_save store clean_image_path (create_placeholder_image env)

/-- Failures that escape `generate_plate`: the `ValueError` raised for an
unknown plate type, and an uncaught `FileNotFoundError` should the re-open
after placeholder synthesis miss (for the registered layout it cannot,
since the synthesis saves to the very path that is re-opened). -/
inductive PlateError
  | unknownLayout (plate_type : String)
  | fileNotFound (path : String)
  deriving DecidableEq

/-- Lines 121-126: open the background; on `FileNotFoundError` synthesize
the placeholder and open again (the second open sits outside the `try`). -/
def load_base (env : Env) (store : AssetStore) (path : String) :
    Except PlateError (RasterImage × AssetStore) :=
  match fs_lookup store path with
  | some img => .ok (img, store)
  | none =>
      let store2 := run_create_placeholder env store
      match fs_lookup store2 path with
      | some img => .ok (img, store2)
      | none => .error (.fileNotFound path)

/-- Lines 134-140: the ordered font-file candidates. -/
def font_paths : List String :=
  ["C:/Windows/Fonts/arial.ttf",
   "/System/Library/Fonts/Arial.ttf",
   "/usr/share/fonts/truetype/dejavu/DejaVuSans-Bold.ttf",
   "arial.ttf"]

/-- Lines 132-152: the first loadable candidate wins; if none loads, the
built-in default font is used. -/
def resolve_font (env : Env) (size : Nat) : Font :=
  (font_paths.findSome? (fun path => env.truetype path size)).getD env.defaultFont

/-- `generate_plate` of `app.py` (lines 109-170), with the asset store and
the font environment passed explicitly.  The `img = base_img.copy()` of
line 129 is value copying here: the drawing functions return a new image
and the store keeps the template it held. -/
def generate_plate (env : Env) (store : AssetStore) (text : List Char)
    (plate_type : String) : Except PlateError (RasterImage × AssetStore) :=
  match registry_lookup plate_type with
  | none => .error (.unknownLayout plate_type)
  | some config =>
      let text2 := truncate_text config.max_chars (normalize_text text)
      match load_base env store config.image_path with
      | .error e => .error e
      | .ok (base_img, store2) =>
          let img := base_img
          let font := resolve_font env config.font_size
          let img2 :=
            if config.letter_spacing > 0 then
              draw_text_with_spacing img text2 config.text_position font
                config.text_color config.letter_spacing
            else
              draw_text_centered img text2 config.text_position font config.text_color
          .ok (img2, store2)

/-- The background a standard-layout call composites onto: the stored
asset when present, else the freshly synthesized placeholder. -/
def std_base (env : Env) (store : AssetStore) : RasterImage :=
  match fs_lookup store clean_image_path with
  | some img => img
  | none => create_placeholder_image env

/-- The asset store after one standard-layout call. -/
def std_store (env : Env) (store : AssetStore) : AssetStore :=
  match fs_lookup store clean_image_path with
  | some _ => store
  | none => run_create_placeholder env store

/-- The characters of the glyph-draw primitives of a list, in order. -/
def glyphChars (ops : List DrawOp) : List Char :=
  ops.flatMap (fun op => match op with
    | DrawOp.text _ _ s _ => s
    | _ => [])

/-! ### Basic lemmas -/

theorem char_eq_iff_toNat {a b : Char} : a = b ↔ a.toNat = b.toNat := by
  constructor
  · intro h; rw [h]
  · intro h
    have h2 : Char.ofNat a.toNat = Char.ofNat b.toNat := by rw [h]
    rwa [Char.ofNat_toNat, Char.ofNat_toNat] at h2

theorem isWhitespace_iff (c : Char) :
    c.isWhitespace = true ↔ c.toNat = 32 ∨ c.toNat = 9 ∨ c.toNat = 13 ∨ c.toNat = 10 := by
  simp only [Char.isWhitespace, Bool.or_eq_true, decide_eq_true_eq, char_eq_iff_toNat,
    show (' ').toNat = 32 from rfl, show ('\t').toNat = 9 from rfl,
    show ('\r').toNat = 13 from rfl, show ('\n').toNat = 10 from rfl, or_assoc]

/-- Uppercasing a character never changes whether it is whitespace. -/
theorem isWhitespace_toUpper (c : Char) :
    (Char.toUpper c).isWhitespace = c.isWhitespace := by
  show (if c.toNat ≥ 97 ∧ c.toNat ≤ 122 then Char.ofNat (c.toNat - 32) else c).isWhitespace
    = c.isWhitespace
  split
  · rename_i h
    have hvalid : (c.toNat - 32).isValidChar := Or.inl (by omega)
    have hval : (Char.ofNat (c.toNat - 32)).toNat = c.toNat - 32 := by
      rw [Char.ofNat, dif_pos hvalid]
      rfl
    have h1 : (Char.ofNat (c.toNat - 32)).isWhitespace = false := by
      rw [Bool.eq_false_iff]
      intro hw
      rcases (isWhitespace_iff _).mp hw with h2 | h2 | h2 | h2 <;> rw [hval] at h2 <;> omega
    have h2 : c.isWhitespace = false := by
      rw [Bool.eq_false_iff]
      intro hw
      rcases (isWhitespace_iff _).mp hw with h3 | h3 | h3 | h3 <;> omega
    rw [h1, h2]
  · rfl

theorem whitespace_comp : Char.isWhitespace ∘ Char.toUpper = Char.isWhitespace := by
  funext c
  exact isWhitespace_toUpper c

/-- Stripping after uppercasing is the same as uppercasing after
stripping: the code's `text.upper().strip()` equals the spec's
`uppercase(strip(text))`. -/
theorem pyStrip_pyUpper (s : List Char) : pyStrip (pyUpper s) = pyUpper (pyStrip s) := by
  unfold pyStrip pyUpper
  rw [List.dropWhile_map, whitespace_comp, ← List.map_reverse, List.dropWhile_map,
    whitespace_comp, ← List.map_reverse]

theorem registry_lookup_standard : registry_lookup "standard" = some standard_config := rfl

theorem fs_lookup_save (store : AssetStore) (path : String) (img : RasterImage) :
    fs_lookup (fs_save store path img) path = some img := by
  simp [fs_lookup, fs_save, List.find?]

/-- Complete characterization of a standard-layout call: it always succeeds,
composites the truncated normalized text onto the background with the
registered anchor, color and spacing, and returns the store `std_store`. -/
theorem generate_plate_standard (env : Env) (store : AssetStore) (t : List Char) :
    generate_plate env store t "standard" =
      .ok (draw_text_with_spacing (std_base env store)
             (truncate_text 10 (normalize_text t)) (490, 180)
             (resolve_font env 200) "#1B365D" 8,
           std_store env store) := by
  unfold generate_plate std_base std_store
  rw [registry_lookup_standard]
  cases h : fs_lookup store clean_image_path with
  | some img => simp [load_base, standard_config, h]
  | none =>
      simp [load_base, standard_config, h, run_create_placeholder, fs_lookup_save]

theorem measure_widths_length (font : Font) (text : List Char) :
    (measure_widths font text).length = text.length :=
  List.length_map _ _

theorem glyphChars_cons (op : DrawOp) (l : List DrawOp) :
    glyphChars (op :: l)
      = (match op with | DrawOp.text _ _ s _ => s | _ => []) ++ glyphChars l := by
  simp [glyphChars]

theorem draw_chars_length (y : Int) (spacing : Nat) (color : PlateColor) :
    ∀ (pairs : List (Char × Nat)) (x : Int),
      (draw_chars y spacing color x pairs).length = pairs.length
  | [], _ => rfl
  | (c, w) :: rest, x => by
      show (DrawOp.text x (y - 25) [c] color ::
        draw_chars y spacing color (x + w + spacing) rest).length = _
      rw [List.length_cons, draw_chars_length y spacing color rest, List.length_cons]

theorem glyphChars_draw_chars (y : Int) (spacing : Nat) (color : PlateColor) :
    ∀ (pairs : List (Char × Nat)) (x : Int),
      glyphChars (draw_chars y spacing color x pairs) = pairs.map Prod.fst
  | [], _ => rfl
  | (c, w) :: rest, x => by
      show glyphChars (DrawOp.text x (y - 25) [c] color ::
        draw_chars y spacing color (x + w + spacing) rest) = _
      rw [glyphChars_cons, glyphChars_draw_chars y spacing color rest, List.map_cons]
      rfl

theorem draw_chars_getElem (y : Int) (spacing : Nat) (color : PlateColor) :
    ∀ (pairs : List (Char × Nat)) (x : Int) (i : Nat), i < pairs.length →
      (draw_chars y spacing color x pairs)[i]? =
        some (DrawOp.text
          (x + (((pairs.map Prod.snd).take i).sum : Int) + (i : Int) * spacing)
          (y - 25) [(pairs.map Prod.fst).getD i 'A'] color)
  | [], x, i, h => by simp at h
  | (c, w) :: rest, x, 0, h => by
      show (DrawOp.text x (y - 25) [c] color ::
        draw_chars y spacing color (x + w + spacing) rest)[0]? = _
      simp
  | (c, w) :: rest, x, i + 1, h => by
      have ih := draw_chars_getElem y spacing color rest (x + w + spacing) i
        (by simpa using h)
      show (DrawOp.text x (y - 25) [c] color ::
        draw_chars y spacing color (x + w + spacing) rest)[i + 1]? = _
      rw [List.getElem?_cons_succ, ih]
      simp only [Option.some.injEq, DrawOp.text.injEq, List.map_cons, List.take_succ_cons,
        List.sum_cons, List.getD_cons_succ]
      constructor
      · push_cast
        ring
      · simp

theorem glyphChars_spaced_ops (text : List Char) (pos : Int × Int) (font : Font)
    (color : String) (spacing : Nat) :
    glyphChars (spaced_ops text pos font color spacing) = text := by
  unfold spaced_ops
  rw [glyphChars_draw_chars, List.map_fst_zip]
  rw [measure_widths_length]

theorem truncate_normalize (t : List Char) (m : Nat) :
    truncate_text m (normalize_text t) = (pyUpper (pyStrip t)).take m := by
  rw [normalize_text, pyStrip_pyUpper]
  unfold truncate_text
  split
  · rfl
  · rename_i h
    rw [List.take_of_length_le (by omega)]

/-! ### Concrete objects used by the witness theorems -/

/-- A concrete font: every string measures 5 pixels per character wide and
7 pixels high. -/
def font0 : Font := { bboxW := fun s => 5 * s.length, bboxH := fun _ => 7 }

/-- A concrete environment in which no font file loads, so every call
falls back to the built-in font. -/
def env0 : Env := { truetype := fun _ _ => none, defaultFont := font0 }

/-- A concrete stored background template. -/
def bg0 : RasterImage := { width := 11, height := 7, bg := "#FFFFFF", ops := [] }

/-- A store already holding the clean base image. -/
def store0 : AssetStore := [(clean_image_path, bg0)]

/-- A concrete input text whose normalization has 15 characters. -/
def text0 : List Char := "  test123longtext ".toList

/-! ### Claims -/

/-- C1: for every input text and the registered standard layout, the glyph
sequence a generate call draws onto the background is exactly the first
`max_chars` characters of `uppercase(strip(text))`; when the normalized
length is at most `max_chars` nothing is cut, beyond it exactly the first
`max_chars` characters are kept, and only this cut text reaches the
measuring and drawing stage. -/
theorem C1_rendered_sequence (env : Env) (store : AssetStore) (t : List Char)
    (img : RasterImage) (st2 : AssetStore)
    (h : generate_plate env store t "standard" = .ok (img, st2)) :
    glyphChars (img.ops.drop (std_base env store).ops.length)
        = (pyUpper (pyStrip t)).take standard_config.max_chars ∧
    ((pyUpper (pyStrip t)).length ≤ standard_config.max_chars →
      glyphChars (img.ops.drop (std_base env store).ops.length) = pyUpper (pyStrip t)) := by
  rw [generate_plate_standard] at h
  simp only [Except.ok.injEq, Prod.mk.injEq] at h
  obtain ⟨h1, h2⟩ := h
  subst h1
  have hops : (draw_text_with_spacing (std_base env store)
      (truncate_text 10 (normalize_text t)) (490, 180) (resolve_font env 200) "#1B365D" 8).ops
      = (std_base env store).ops ++ spaced_ops (truncate_text 10 (normalize_text t))
          (490, 180) (resolve_font env 200) "#1B365D" 8 := rfl
  have hmain : glyphChars ((draw_text_with_spacing (std_base env store)
      (truncate_text 10 (normalize_text t)) (490, 180) (resolve_font env 200) "#1B365D"
        8).ops.drop (std_base env store).ops.length)
      = (pyUpper (pyStrip t)).take standard_config.max_chars := by
    rw [hops, List.drop_left, glyphChars_spaced_ops, truncate_normalize]
    rfl
  exact ⟨hmain, fun hlen => by rw [hmain]; exact List.take_of_length_le hlen⟩

/-- C1 witness: a store with no asset, no loadable font file, and a text
that normalizes to TEST123LONGTEXT, cut to its first ten characters. -/
theorem C1_witness :
    glyphChars ((draw_text_with_spacing (std_base env0 []) (truncate_text 10
        (normalize_text text0)) (490, 180) (resolve_font env0 200) "#1B365D" 8).ops.drop
          (std_base env0 []).ops.length)
      = (pyUpper (pyStrip text0)).take standard_config.max_chars :=
  (C1_rendered_sequence env0 [] text0 _ _ (generate_plate_standard env0 [] text0)).1

/-- C2: with letter spacing, character `i` of the (already cut) text is
drawn at `x` equal to the floor-centered start position plus the measured
widths of characters `0..i-1` plus `i` letter spacings, at `y` equal to
the anchor `y` minus the fixed offset 25; one glyph is drawn per
character, so no trailing spacing follows the last position. -/
theorem C2_char_positions (img : RasterImage) (font : Font) (pos : Int × Int)
    (color : String) (spacing : Nat) (text : List Char) (i : Nat)
    (h : i < text.length) :
    (draw_text_with_spacing img text pos font color spacing).ops
        = img.ops ++ spaced_ops text pos font color spacing ∧
    (spaced_ops text pos font color spacing).length = text.length ∧
    (spaced_ops text pos font color spacing)[i]? =
      some (DrawOp.text
        (start_x pos.1 (compute_total_width (measure_widths font text) spacing)
          + (((measure_widths font text).take i).sum : Int) + (i : Int) * spacing)
        (pos.2 - 25) [text[i]] (PlateColor.rgb (hex_to_rgb color))) := by
  refine ⟨rfl, ?_, ?_⟩
  · unfold spaced_ops
    rw [draw_chars_length]
    simp [measure_widths_length]
  · have hlen : i < (text.zip (measure_widths font text)).length := by
      simpa [measure_widths_length] using h
    unfold spaced_ops
    rw [draw_chars_getElem _ _ _ _ _ _ hlen,
      List.map_fst_zip _ _ (le_of_eq (measure_widths_length font text).symm),
      List.map_snd_zip _ _ (le_of_eq (measure_widths_length font text))]
    simp [List.getD_eq_getElem?_getD, List.getElem?_eq_getElem h]

/-- C2 witness: the second character of a two-character text under the
concrete font sits at the start position plus one width plus one spacing,
25 pixels above the anchor. -/
theorem C2_witness :
    (spaced_ops ['A', 'B'] (490, 180) font0 "#1B365D" 8)[1]? =
      some (DrawOp.text
        (start_x 490 (compute_total_width (measure_widths font0 ['A', 'B']) 8)
          + (((measure_widths font0 ['A', 'B']).take 1).sum : Int) + (1 : Int) * 8)
        (180 - 25) ['B'] (PlateColor.rgb (hex_to_rgb "#1B365D"))) :=
  (C2_char_positions bg0 font0 (490, 180) "#1B365D" 8 ['A', 'B'] 1 (by decide)).2.2

/-- C3 counterexample: for the zero-character truncated text with the
standard spacing 8, the code computes total width 0 + 8 * (0 - 1) = -8,
not the sum of glyph widths alone (which is 0) that the claim states for
every n at most 1. -/
theorem C3_counterexample :
    compute_total_width (measure_widths font0 []) 8
      ≠ ((measure_widths font0 []).sum : Int) := by decide

/-- C3 amended: the computed total layout width equals the sum of the
measured widths plus spacing times (n - 1) in signed arithmetic; the
spacing term vanishes when n = 1, but when n = 0 the computed width is
-spacing rather than zero (harmless: nothing is drawn for empty text). -/
theorem C3_total_width (font : Font) (spacing : Nat) (text : List Char) :
    compute_total_width (measure_widths font text) spacing
        = ((measure_widths font text).sum : Int)
          + (spacing : Int) * ((text.length : Int) - 1) ∧
    (text.length = 1 → compute_total_width (measure_widths font text) spacing
        = ((measure_widths font text).sum : Int)) ∧
    (text.length = 0 → compute_total_width (measure_widths font text) spacing
        = -(spacing : Int)) := by
  unfold compute_total_width
  rw [measure_widths_length]
  refine ⟨rfl, ?_, ?_⟩
  · intro h1
    rw [h1]
    simp
  · intro h0
    obtain rfl : text = [] := List.length_eq_zero.mp h0
    simp [measure_widths]

/-- C3 witness: for a one-character text the spacing term vanishes and the
total width is the single measured width. -/
theorem C3_witness :
    compute_total_width (measure_widths font0 ['A']) 8
      = ((measure_widths font0 ['A']).sum : Int) :=
  (C3_total_width font0 8 ['A']).2.1 rfl

/-- C4: a plate type with no registry entry makes `generate_plate` fail
with the unknown-layout error carrying that plate type; no image is
produced and nothing is loaded or drawn. -/
theorem C4_unknown_layout (env : Env) (store : AssetStore) (t : List Char)
    (plate_type : String) (h : registry_lookup plate_type = none) :
    generate_plate env store t plate_type
      = .error (PlateError.unknownLayout plate_type) := by
  unfold generate_plate
  rw [h]

/-- C4 witness: the plate type `custom` is not registered. -/
theorem C4_witness :
    generate_plate env0 store0 text0 "custom"
      = .error (PlateError.unknownLayout "custom") :=
  C4_unknown_layout env0 store0 text0 "custom" rfl

theorem draw_text_with_spacing_nil (img : RasterImage) (pos : Int × Int) (font : Font)
    (color : String) (spacing : Nat) :
    draw_text_with_spacing img [] pos font color spacing = img := by
  show { img with ops := img.ops ++ [] } = img
  rw [List.append_nil]

/-- C5: input whose normalization is empty (in particular the empty
string) succeeds on the standard layout and returns exactly the
unmodified background template: no glyphs are drawn and no error is
raised. -/
theorem C5_empty_text (env : Env) (store : AssetStore) (t : List Char)
    (h : normalize_text t = []) :
    generate_plate env store t "standard"
      = .ok (std_base env store, std_store env store) := by
  rw [generate_plate_standard, h]
  rw [show truncate_text 10 ([] : List Char) = [] from rfl]
  rw [draw_text_with_spacing_nil]

/-- C5 witness: all-whitespace input strips to empty and yields the
untouched template. -/
theorem C5_witness :
    generate_plate env0 store0 "   ".toList "standard"
      = .ok (std_base env0 store0, std_store env0 store0) :=
  C5_empty_text env0 store0 "   ".toList (by decide)

/-- C6: for nonempty text, the glyph span of the computed total width laid
out from the computed start position is symmetric about the anchor x
within one pixel: the distance from the start to the anchor and the
distance from the anchor to the end of the span differ by at most 1. -/
theorem C6_centering (font : Font) (spacing : Nat) (x : Int) (text : List Char)
    (h : text ≠ []) :
    ((x - start_x x (compute_total_width (measure_widths font text) spacing))
      - (start_x x (compute_total_width (measure_widths font text) spacing)
          + compute_total_width (measure_widths font text) spacing - x)).natAbs ≤ 1 := by
  have hn : 1 ≤ text.length := List.length_pos.mpr h
  have h0 : 0 ≤ compute_total_width (measure_widths font text) spacing := by
    unfold compute_total_width
    rw [measure_widths_length]
    have h1 : (0:Int) ≤ ((measure_widths font text).sum : Int) := Int.natCast_nonneg _
    have h2 : (0:Int) ≤ (spacing : Int) * ((text.length : Int) - 1) :=
      mul_nonneg (Int.natCast_nonneg _) (by omega)
    exact add_nonneg h1 h2
  unfold start_x
  rw [Int.fdiv_eq_ediv _ (by norm_num : (0:Int) ≤ 2)]
  omega

/-- C6 witness: a single character at the standard anchor and spacing. -/
theorem C6_witness :
    ((490 - start_x 490 (compute_total_width (measure_widths font0 ['A']) 8))
      - (start_x 490 (compute_total_width (measure_widths font0 ['A']) 8)
          + compute_total_width (measure_widths font0 ['A']) 8 - 490)).natAbs ≤ 1 :=
  C6_centering font0 8 490 ['A'] (by decide)

/-- C7: when the background is already materialized in the store, a
standard generate call composites onto a copy of it and returns the store
unchanged: the stored template read by any later call is exactly the one
read before. -/
theorem C7_template_preserved (env : Env) (store : AssetStore) (t : List Char)
    (img : RasterImage) (st2 : AssetStore) (bg : RasterImage)
    (hmat : fs_lookup store clean_image_path = some bg)
    (h : generate_plate env store t "standard" = .ok (img, st2)) :
    st2 = store ∧
    fs_lookup st2 clean_image_path = some bg ∧
    img = draw_text_with_spacing bg (truncate_text 10 (normalize_text t)) (490, 180)
      (resolve_font env 200) "#1B365D" 8 := by
  rw [generate_plate_standard] at h
  simp only [Except.ok.injEq, Prod.mk.injEq] at h
  obtain ⟨h1, h2⟩ := h
  subst h1
  subst h2
  unfold std_store std_base
  rw [hmat]
  exact ⟨rfl, hmat, rfl⟩

/-- C7 witness: a store holding a concrete template; the call returns the
same store, the template is still there, and the image is the template
plus glyphs. -/
theorem C7_witness :
    std_store env0 store0 = store0 ∧
    fs_lookup (std_store env0 store0) clean_image_path = some bg0 ∧
    draw_text_with_spacing (std_base env0 store0) (truncate_text 10 (normalize_text text0))
        (490, 180) (resolve_font env0 200) "#1B365D" 8
      = draw_text_with_spacing bg0 (truncate_text 10 (normalize_text text0)) (490, 180)
          (resolve_font env0 200) "#1B365D" 8 :=
  C7_template_preserved env0 store0 text0 _ _ bg0 rfl
    (generate_plate_standard env0 store0 text0)

/-- C8: when the background asset is absent, a standard call synthesizes
the deterministic 950 by 475 placeholder, persists it at the clean-image
path, composites onto it, and succeeds; every later call finds the
persisted asset, reuses it, and leaves the store unchanged. -/
theorem C8_placeholder (env : Env) (store : AssetStore) (t : List Char)
    (hmiss : fs_lookup store clean_image_path = none) :
    (create_placeholder_image env).width = 950 ∧
    (create_placeholder_image env).height = 475 ∧
    generate_plate env store t "standard"
      = .ok (draw_text_with_spacing (create_placeholder_image env)
              (truncate_text 10 (normalize_text t)) (490, 180)
              (resolve_font env 200) "#1B365D" 8,
             run_create_placeholder env store) ∧
    fs_lookup (run_create_placeholder env store) clean_image_path
      = some (create_placeholder_image env) ∧
    (∀ t2 : List Char, generate_plate env (run_create_placeholder env store) t2 "standard"
      = .ok (draw_text_with_spacing (create_placeholder_image env)
              (truncate_text 10 (normalize_text t2)) (490, 180)
              (resolve_font env 200) "#1B365D" 8,
             run_create_placeholder env store)) := by
  have hsave : fs_lookup (run_create_placeholder env store) clean_image_path
      = some (create_placeholder_image env) := fs_lookup_save _ _ _
  refine ⟨rfl, rfl, ?_, hsave, ?_⟩
  · rw [generate_plate_standard]
    unfold std_base std_store
    rw [hmiss]
  · intro t2
    rw [generate_plate_standard]
    unfold std_base std_store
    rw [hsave]

/-- C8 witness: an empty store; the placeholder is synthesized, persisted,
composited onto, and reused by a second call. -/
theorem C8_witness :
    generate_plate env0 [] text0 "standard"
      = .ok (draw_text_with_spacing (create_placeholder_image env0)
              (truncate_text 10 (normalize_text text0)) (490, 180)
              (resolve_font env0 200) "#1B365D" 8,
             run_create_placeholder env0 []) :=
  (C8_placeholder env0 [] text0 rfl).2.2.1

/-- C9: font-loading failure is never fatal: in every environment,
whatever subset of the font candidates loads (possibly none), a standard
call succeeds and returns an image; and when no candidate loads, the
resolved font is the built-in default. -/
theorem C9_font_never_fatal (env : Env) (store : AssetStore) (t : List Char) :
    (∃ img st2, generate_plate env store t "standard" = .ok (img, st2)) ∧
    ((∀ p ∈ font_paths, env.truetype p 200 = none)
      → resolve_font env 200 = env.defaultFont) := by
  constructor
  · exact ⟨_, _, generate_plate_standard env store t⟩
  · intro hall
    unfold resolve_font
    rw [List.findSome?_eq_none_iff.mpr hall]
    rfl

/-- C9 witness: the environment where no font file loads still resolves
to the built-in default font. -/
theorem C9_witness : resolve_font env0 200 = env0.defaultFont :=
  (C9_font_never_fatal env0 [] []).2 (fun _ _ => rfl)

/-- C10: every image a successful standard call returns has exactly the
background's dimensions (drawing glyphs never changes them); when the
asset was absent, so the synthesized placeholder is the background, they
are 950 by 475, for every input text. -/
theorem C10_dimensions (env : Env) (store : AssetStore) (t : List Char)
    (img : RasterImage) (st2 : AssetStore)
    (h : generate_plate env store t "standard" = .ok (img, st2)) :
    img.width = (std_base env store).width ∧
    img.height = (std_base env store).height ∧
    (fs_lookup store clean_image_path = none →
      img.width = 950 ∧ img.height = 475) := by
  rw [generate_plate_standard] at h
  simp only [Except.ok.injEq, Prod.mk.injEq] at h
  obtain ⟨h1, h2⟩ := h
  subst h1
  refine ⟨rfl, rfl, ?_⟩
  intro hnone
  unfold std_base
  rw [hnone]
  exact ⟨rfl, rfl⟩

/-- C10 witness: with an empty store the returned image is 950 by 475. -/
theorem C10_witness :
    (draw_text_with_spacing (std_base env0 []) (truncate_text 10 (normalize_text text0))
        (490, 180) (resolve_font env0 200) "#1B365D" 8).width = 950 ∧
    (draw_text_with_spacing (std_base env0 []) (truncate_text 10 (normalize_text text0))
        (490, 180) (resolve_font env0 200) "#1B365D" 8).height = 475 :=
  (C10_dimensions env0 [] text0 _ _ (generate_plate_standard env0 [] text0)).2.2 rfl
